import Mathlib

/-
Shallow embedding of the "Byte Wrangler" mini-game in
`src/unnamed/part_001` (the `startGame` closure and its `gameLoop`).

Modelling conventions:
* JS numbers are modelled as `ℚ` (exact arithmetic; the claims under
  study do not depend on floating-point rounding).
* `Math.sqrt d < s` comparisons are embedded in the equivalent squared
  form `d < s * s`, which agrees with the source for every nonnegative
  radius sum (all sizes in the game are positive); the equivalence with
  the real square root is proved in `collide_iff_sqrt_lt` below.
* The one place where the square root's *value* matters (the
  held-byte follow step `byte.x += dx / distance * 3`) uses `ratSqrt`,
  an exact rational square root on perfect squares.  No theorem in this
  file depends on the value of `ratSqrt` off perfect squares.
* The per-tick random draws (`Math.random()` for respawn position,
  velocity and color) and the wall clock (`Date.now()`) are oracle
  parameters of the tick function.
* The `Byte.eaten` field is pure instrumentation (a history variable):
  it is set exactly where the source increments `eatenBytes`, cleared
  exactly where a byte is respawned, and never read by the dynamics.
  It lets the theorems distinguish deposit-captured from
  consumption-captured units, a distinction the source code itself does
  not record per byte.
-/

namespace ByteWrangler

/-- The `gameResult` React state: 'playing' | 'success' | 'failed'. -/
inductive GameResult where
  | playing
  | success
  | failed
deriving DecidableEq

/-- One element of the `bytes` array (lines 217-220 of the source):
position, velocity, size, color (modelled by its random hue), the
`caught`/`grabbed` flags and the grab target.  `eaten` is the
instrumentation field described in the header comment. -/
structure Byte where
  x : ℚ
  y : ℚ
  vx : ℚ
  vy : ℚ
  size : ℚ
  color : ℚ
  caught : Bool
  grabbed : Bool
  targetX : ℚ
  targetY : ℚ
  eaten : Bool
deriving DecidableEq

/-- One element of the `ghosts` array (lines 221-224). -/
structure Ghost where
  x : ℚ
  y : ℚ
  vx : ℚ
  vy : ℚ
  size : ℚ
  color : ℚ
  phase : ℚ
deriving DecidableEq

/-- The `controller` object (line 225). -/
structure Controller where
  x : ℚ
  y : ℚ
  size : ℚ
deriving DecidableEq

/-- The `container` rectangle (line 226). -/
structure Zone where
  x : ℚ
  y : ℚ
  width : ℚ
  height : ℚ
deriving DecidableEq

/-- The mutable state closed over by `gameLoop`:
`bytes`, `ghosts`, `controller`, `container`, `caughtBytes`,
`eatenBytes`, `lastByteSpawn` and the game result. -/
structure GameState where
  bytes : List Byte
  ghosts : List Ghost
  controller : Controller
  container : Zone
  caughtBytes : ℕ
  eatenBytes : ℕ
  lastByteSpawn : ℕ
  result : GameResult
deriving DecidableEq

/-- `const totalBytes = 20` (line 231). -/
def totalBytes : ℕ := 20

/-- Canvas width, fixed at 600 by the JSX `<canvas width={600} ...>`. -/
def canvasWidth : ℚ := 600

/-- Canvas height, fixed at 400 by the JSX `<canvas ... height={400}>`. -/
def canvasHeight : ℚ := 400

/-- `container = { x: 250, y: 200, width: 200, height: 100 }` (line 226). -/
def container0 : Zone := { x := 250, y := 200, width := 200, height := 100 }

/-- Exact rational square root: on the square of a nonnegative rational
in lowest terms it returns that rational exactly; elsewhere it is a
floor-style approximation whose value no theorem below depends on. -/
def ratSqrt (q : ℚ) : ℚ := (Nat.sqrt q.num.toNat : ℚ) / (Nat.sqrt q.den : ℚ)

/-- The circle-circle proximity test used by every collision check in
`gameLoop`: `Math.sqrt((x1-x2)**2 + (y1-y2)**2) < s`, embedded in the
equivalent squared form (see `collide_iff_sqrt_lt`). -/
def collide (x1 y1 x2 y2 s : ℚ) : Bool :=
  decide ((x1 - x2) * (x1 - x2) + (y1 - y2) * (y1 - y2) < s * s)

/-- The byte respawn of lines 303-315: find the first byte with
`caught` set, give it a fresh random position, velocity and color and
clear its `caught`/`grabbed` flags.  The fresh random draws are the
`rx ry rvx rvy rcolor` parameters. -/
def respawnFirstCaught (rx ry rvx rvy rcolor : ℚ) : List Byte → List Byte
  | [] => []
  | b :: bs =>
      if b.caught then
        { b with x := rx, y := ry, vx := rvx, vy := rvy, color := rcolor,
                 caught := false, grabbed := false, eaten := false } :: bs
      else
        b :: respawnFirstCaught rx ry rvx rvy rcolor bs

/-- The time-gated respawn block of lines 301-317: when more than
1000 ms have passed since `lastByteSpawn`, respawn the first caught
byte (if any) and record the current time. -/
def respawnPhase (now : ℕ) (rx ry rvx rvy rcolor : ℚ) (s : GameState) : GameState :=
  if s.lastByteSpawn + 1000 < now then
    { s with bytes := respawnFirstCaught rx ry rvx rvy rcolor s.bytes,
             lastByteSpawn := now }
  else s

/-- `const ghostSpeedMultiplier = caughtBytes >= 10 ? 2.0 : 1.0` (line 320). -/
def ghostSpeedMultiplier (caughtB : ℕ) : ℚ :=
  if 10 ≤ caughtB then 2 else 1

/-- Ghost motion and wall bounce (lines 333-347): position advances by
`velocity * multiplier`, the phase by 0.1, and on touching or crossing
a wall the corresponding velocity component is negated and the position
clamped into `[0, extent - size]`. -/
def moveGhost (w h mult : ℚ) (g : Ghost) : Ghost :=
  let x := g.x + g.vx * mult
  let y := g.y + g.vy * mult
  let xHit := x ≤ 0 ∨ w - g.size ≤ x
  let yHit := y ≤ 0 ∨ h - g.size ≤ y
  { g with
    x := if xHit then max 0 (min (w - g.size) x) else x
    vx := if xHit then -g.vx else g.vx
    y := if yHit then max 0 (min (h - g.size) y) else y
    vy := if yHit then -g.vy else g.vy
    phase := g.phase + 1 / 10 }

/-- Free-byte motion and wall bounce (lines 383-394), same reflection
rule as the ghosts but without a speed multiplier. -/
def moveFree (w h : ℚ) (b : Byte) : Byte :=
  let x := b.x + b.vx
  let y := b.y + b.vy
  let xHit := x ≤ 0 ∨ w - b.size ≤ x
  let yHit := y ≤ 0 ∨ h - b.size ≤ y
  { b with
    x := if xHit then max 0 (min (w - b.size) x) else x
    vx := if xHit then -b.vx else b.vx
    y := if yHit then max 0 (min (h - b.size) y) else y
    vy := if yHit then -b.vy else b.vy }

/-- The cursor-grab check of lines 396-403: while the pointer button is
held and the byte is within `controller.size + byte.size` of the
controller, mark it grabbed and record the controller position as its
follow target. -/
def grabCheck (c : Controller) (dragging : Bool) (b : Byte) : Byte :=
  if collide b.x b.y c.x c.y (c.size + b.size) && dragging then
    { b with grabbed := true, targetX := c.x, targetY := c.y }
  else b

/-- The overlap test of the ghost-consumption check (lines 406-408). -/
def overlapsGhost (b : Byte) (g : Ghost) : Bool :=
  collide b.x b.y g.x g.y (g.size + b.size)

/-- Marking a byte as eaten by a ghost (lines 409-410): the source only
sets `caught`; `eaten` is the instrumentation flag. -/
def eatMark (b : Byte) : Byte :=
  { b with caught := true, eaten := true }

/-- The ghost-consumption loop of lines 405-413: test the byte against
every ghost in order; each overlapping ghost sets `caught` and
increments the eaten counter (the source does not re-test `caught`
inside the loop, so two overlapping ghosts increment it twice). -/
def eatCheck (gs : List Ghost) (b : Byte) (n : ℕ) : Byte × ℕ :=
  gs.foldl
    (fun bn g => if overlapsGhost bn.1 g then (eatMark bn.1, bn.2 + 1) else bn)
    (b, n)

/-- The held-byte follow step of lines 417-425: move 3 units toward the
controller along the straight-line direction, but only when the
distance exceeds 5. -/
def followMove (c : Controller) (b : Byte) : Byte :=
  let dx := c.x - b.x
  let dy := c.y - b.y
  let d2 := dx * dx + dy * dy
  if 25 < d2 then
    { b with x := b.x + dx / ratSqrt d2 * 3, y := b.y + dy / ratSqrt d2 * 3 }
  else b

/-- The deposit check of lines 427-435: a held byte whose position lies
inside the container rectangle becomes caught, loses its grabbed flag,
and the deposit counter increments (the returned `ℕ` is the increment). -/
def depositCheck (z : Zone) (b : Byte) : Byte × ℕ :=
  if z.x ≤ b.x ∧ b.x ≤ z.x + z.width ∧ z.y ≤ b.y ∧ b.y ≤ z.y + z.height then
    ({ b with caught := true, grabbed := false }, 1)
  else (b, 0)

/-- Processing of a single byte in the `bytes.forEach` body
(lines 380-436).  Returns the updated byte, the eaten-counter increment
and the deposit-counter increment.  The free block (motion, grab check,
ghost check) runs only when the byte enters the tick neither caught nor
grabbed; the held block (follow move, deposit check) runs when, after
the free block, the byte is grabbed and not caught. -/
def byteStep (w h : ℚ) (c : Controller) (dragging : Bool) (gs : List Ghost)
    (z : Zone) (b : Byte) : Byte × ℕ × ℕ :=
  let fe :=
    if !b.caught && !b.grabbed then
      eatCheck gs (grabCheck c dragging (moveFree w h b)) 0
    else (b, 0)
  let hd :=
    if fe.1.grabbed && !fe.1.caught then
      depositCheck z (followMove c fe.1)
    else (fe.1, 0)
  (hd.1, fe.2, hd.2)

/-- The whole `bytes.forEach` loop: each byte is processed
independently (no byte reads another byte's state or the counters), so
the loop is the pointwise `byteStep` with the counter increments
summed. -/
def bytesPhase (w h : ℚ) (c : Controller) (dragging : Bool) (gs : List Ghost)
    (z : Zone) : List Byte → List Byte × ℕ × ℕ
  | [] => ([], 0, 0)
  | b :: bs =>
      let r := byteStep w h c dragging gs z b
      let rest := bytesPhase w h c dragging gs z bs
      (r.1 :: rest.1, r.2.1 + rest.2.1, r.2.2 + rest.2.2)

/-- The end-of-tick outcome evaluation of lines 487-520: the win check
(`caughtBytes >= totalBytes`) runs first, then the consumption-lose
check (`eatenBytes >= totalBytes`); otherwise the game stays in
progress. -/
def evalResult (caughtB eatenB : ℕ) : GameResult :=
  if totalBytes ≤ caughtB then GameResult.success
  else if totalBytes ≤ eatenB then GameResult.failed
  else GameResult.playing

/-- One invocation of `gameLoop` (lines 291-523), with rendering calls
dropped: the top liveness guard, then respawn phase, ghost-speed
multiplier, ghost motion, byte loop, and the end-of-tick outcome
evaluation.  `dragging` is `isDraggingLocal`, `now` is `Date.now()`,
and `rx ry rvx rvy rcolor` are the respawn random draws. -/
def tick (w h : ℚ) (dragging : Bool) (now : ℕ) (rx ry rvx rvy rcolor : ℚ)
    (s : GameState) : GameState :=
  if s.result ≠ GameResult.playing then s
  else
    let s1 := respawnPhase now rx ry rvx rvy rcolor s
    let mult := ghostSpeedMultiplier s1.caughtBytes
    let gs := s1.ghosts.map (moveGhost w h mult)
    let r := bytesPhase w h s1.controller dragging gs s1.container s1.bytes
    let caughtB := s1.caughtBytes + r.2.2
    let eatenB := s1.eatenBytes + r.2.1
    { s1 with ghosts := gs, bytes := r.1,
              caughtBytes := caughtB, eatenBytes := eatenB,
              result := evalResult caughtB eatenB }

/-- The countdown callback of lines 529-549: each second, when the
remaining time is at most 1 it becomes 0 and the game result is forced
to failed; otherwise the time decrements and the result is untouched. -/
def timerTick (timeLeft : ℕ) (r : GameResult) : ℕ × GameResult :=
  if timeLeft ≤ 1 then (0, GameResult.failed) else (timeLeft - 1, r)

/-- A byte is free-floating: neither caught nor grabbed. -/
def isFreeByte (b : Byte) : Bool := !b.caught && !b.grabbed

/-- A byte is held by the cursor: grabbed and not caught. -/
def isHeldByte (b : Byte) : Bool := !b.caught && b.grabbed

/-- A byte is captured by a successful deposit. -/
def isDepositCaptured (b : Byte) : Bool := b.caught && !b.eaten

/-- A byte is captured by ghost consumption. -/
def isConsumptionCaptured (b : Byte) : Bool := b.caught && b.eaten

/-- Helper to build concrete bytes for the concrete-input theorems. -/
def mkByte (x y vx vy size : ℚ) (caught grabbed eaten : Bool) : Byte :=
  { x := x, y := y, vx := vx, vy := vy, size := size, color := 0,
    caught := caught, grabbed := grabbed, targetX := 0, targetY := 0,
    eaten := eaten }

/-- Helper: a motionless ghost at a given position. -/
def stillGhost (x y size : ℚ) : Ghost :=
  { x := x, y := y, vx := 0, vy := 0, size := size, color := 0, phase := 0 }

/-- Helper: the cursor at a given position with its fixed size 20. -/
def ctrlAt (x y : ℚ) : Controller := { x := x, y := y, size := 20 }

/-! ### Helper lemmas about the individual phases -/

theorem collide_iff_sqrt_lt (x1 y1 x2 y2 s : ℚ) (hs : 0 ≤ s) :
    collide x1 y1 x2 y2 s = true ↔
      Real.sqrt (((x1 : ℝ) - x2) ^ 2 + ((y1 : ℝ) - y2) ^ 2) < (s : ℝ) := by
  rw [collide, decide_eq_true_eq]
  have hcast : ((x1 - x2) * (x1 - x2) + (y1 - y2) * (y1 - y2) < s * s) ↔
      (((x1 : ℝ) - x2) ^ 2 + ((y1 : ℝ) - y2) ^ 2 < (s : ℝ) ^ 2) := by
    constructor
    · intro h
      have h' : ((x1 : ℝ) - x2) * ((x1 : ℝ) - x2) + ((y1 : ℝ) - y2) * ((y1 : ℝ) - y2)
          < (s : ℝ) * s := by exact_mod_cast h
      nlinarith [h']
    · intro h
      have h' : ((x1 : ℝ) - x2) * ((x1 : ℝ) - x2) + ((y1 : ℝ) - y2) * ((y1 : ℝ) - y2)
          < (s : ℝ) * s := by nlinarith [h]
      exact_mod_cast h'
  rw [hcast]
  rcases eq_or_lt_of_le hs with h0 | h0
  · constructor
    · intro h
      exfalso
      have hx : (0 : ℝ) ≤ ((x1 : ℝ) - x2) ^ 2 := sq_nonneg _
      have hy : (0 : ℝ) ≤ ((y1 : ℝ) - y2) ^ 2 := sq_nonneg _
      rw [← h0] at h
      push_cast at h
      nlinarith
    · intro h
      exfalso
      have := Real.sqrt_nonneg (((x1 : ℝ) - x2) ^ 2 + ((y1 : ℝ) - y2) ^ 2)
      rw [← h0] at h
      push_cast at h
      linarith
  · rw [Real.sqrt_lt' (by exact_mod_cast h0)]

theorem respawnPhase_ghosts (now : ℕ) (rx ry rvx rvy rcolor : ℚ) (s : GameState) :
    (respawnPhase now rx ry rvx rvy rcolor s).ghosts = s.ghosts := by
  unfold respawnPhase; split <;> rfl

theorem respawnPhase_controller (now : ℕ) (rx ry rvx rvy rcolor : ℚ) (s : GameState) :
    (respawnPhase now rx ry rvx rvy rcolor s).controller = s.controller := by
  unfold respawnPhase; split <;> rfl

theorem respawnPhase_container (now : ℕ) (rx ry rvx rvy rcolor : ℚ) (s : GameState) :
    (respawnPhase now rx ry rvx rvy rcolor s).container = s.container := by
  unfold respawnPhase; split <;> rfl

theorem respawnPhase_caughtBytes (now : ℕ) (rx ry rvx rvy rcolor : ℚ) (s : GameState) :
    (respawnPhase now rx ry rvx rvy rcolor s).caughtBytes = s.caughtBytes := by
  unfold respawnPhase; split <;> rfl

theorem respawnPhase_eatenBytes (now : ℕ) (rx ry rvx rvy rcolor : ℚ) (s : GameState) :
    (respawnPhase now rx ry rvx rvy rcolor s).eatenBytes = s.eatenBytes := by
  unfold respawnPhase; split <;> rfl

theorem respawnPhase_result (now : ℕ) (rx ry rvx rvy rcolor : ℚ) (s : GameState) :
    (respawnPhase now rx ry rvx rvy rcolor s).result = s.result := by
  unfold respawnPhase; split <;> rfl

theorem respawnFirstCaught_length (rx ry rvx rvy rcolor : ℚ) (bs : List Byte) :
    (respawnFirstCaught rx ry rvx rvy rcolor bs).length = bs.length := by
  induction bs with
  | nil => rfl
  | cons b bs ih =>
      unfold respawnFirstCaught
      split
      · simp
      · simpa using ih

theorem respawnFirstCaught_of_none_caught (rx ry rvx rvy rcolor : ℚ)
    (bs : List Byte) (h : ∀ b ∈ bs, b.caught = false) :
    respawnFirstCaught rx ry rvx rvy rcolor bs = bs := by
  induction bs with
  | nil => rfl
  | cons b bs ih =>
      unfold respawnFirstCaught
      rw [if_neg]
      · rw [ih fun b hb => h b (List.mem_cons_of_mem _ hb)]
      · simp [h b (List.mem_cons_self b bs)]

theorem respawnFirstCaught_split (rx ry rvx rvy rcolor : ℚ)
    (pre post : List Byte) (b : Byte)
    (hpre : ∀ p ∈ pre, p.caught = false) (hb : b.caught = true) :
    respawnFirstCaught rx ry rvx rvy rcolor (pre ++ b :: post) =
      pre ++ ({ b with x := rx, y := ry, vx := rvx, vy := rvy, color := rcolor,
                       caught := false, grabbed := false, eaten := false } :: post) := by
  induction pre with
  | nil =>
      simp only [List.nil_append]
      unfold respawnFirstCaught
      rw [if_pos hb]
  | cons p pre ih =>
      simp only [List.cons_append]
      unfold respawnFirstCaught
      rw [if_neg]
      · rw [ih fun q hq => hpre q (List.mem_cons_of_mem _ hq)]
      · simp [hpre p (List.mem_cons_self p pre)]

theorem eatMark_eatMark (b : Byte) : eatMark (eatMark b) = eatMark b := rfl

theorem overlapsGhost_eatMark (b : Byte) (g : Ghost) :
    overlapsGhost (eatMark b) g = overlapsGhost b g := rfl

theorem eatCheck_spec (gs : List Ghost) (b : Byte) (n : ℕ) :
    eatCheck gs b n =
      ((if gs.any (overlapsGhost b) then eatMark b else b),
        n + gs.countP (overlapsGhost b)) := by
  induction gs generalizing b n with
  | nil => simp [eatCheck]
  | cons g gs ih =>
      have step : eatCheck (g :: gs) b n =
          eatCheck gs (if overlapsGhost b g then eatMark b else b)
            (if overlapsGhost b g then n + 1 else n) := by
        unfold eatCheck
        rw [List.foldl_cons]
        split <;> rfl
      rw [step]
      have hfun : overlapsGhost (eatMark b) = overlapsGhost b := rfl
      by_cases h : overlapsGhost b g = true
      · rw [if_pos h, if_pos h, ih, hfun, eatMark_eatMark, ite_self]
        have hany : (g :: gs).any (overlapsGhost b) = true := by simp [h]
        rw [hany, if_pos rfl, List.countP_cons, if_pos h]
        simp only [Prod.mk.injEq]
        exact ⟨by trivial, by omega⟩
      · rw [if_neg h, if_neg h, ih]
        rw [Bool.not_eq_true] at h
        simp [List.any_cons, List.countP_cons, h]

theorem grabCheck_x (c : Controller) (d : Bool) (b : Byte) :
    (grabCheck c d b).x = b.x := by
  unfold grabCheck; split <;> rfl

theorem grabCheck_y (c : Controller) (d : Bool) (b : Byte) :
    (grabCheck c d b).y = b.y := by
  unfold grabCheck; split <;> rfl

theorem grabCheck_size (c : Controller) (d : Bool) (b : Byte) :
    (grabCheck c d b).size = b.size := by
  unfold grabCheck; split <;> rfl

theorem grabCheck_caught (c : Controller) (d : Bool) (b : Byte) :
    (grabCheck c d b).caught = b.caught := by
  unfold grabCheck; split <;> rfl

theorem grabCheck_eaten (c : Controller) (d : Bool) (b : Byte) :
    (grabCheck c d b).eaten = b.eaten := by
  unfold grabCheck; split <;> rfl

theorem grabCheck_grabbed (c : Controller) (d : Bool) (b : Byte) :
    (grabCheck c d b).grabbed =
      (b.grabbed || (collide b.x b.y c.x c.y (c.size + b.size) && d)) := by
  unfold grabCheck
  split
  · next h => simp [h]
  · next h =>
      rw [Bool.and_eq_true] at h
      push_neg at h
      by_cases hc : collide b.x b.y c.x c.y (c.size + b.size) = true
      · simp [hc, h hc]
      · rw [Bool.not_eq_true] at hc
        simp [hc]

theorem followMove_grabbed (c : Controller) (b : Byte) :
    (followMove c b).grabbed = b.grabbed := by
  simp only [followMove]; split <;> rfl

theorem followMove_caught (c : Controller) (b : Byte) :
    (followMove c b).caught = b.caught := by
  simp only [followMove]; split <;> rfl

theorem followMove_eaten (c : Controller) (b : Byte) :
    (followMove c b).eaten = b.eaten := by
  simp only [followMove]; split <;> rfl

theorem followMove_size (c : Controller) (b : Byte) :
    (followMove c b).size = b.size := by
  simp only [followMove]; split <;> rfl

theorem depositCheck_eaten (z : Zone) (b : Byte) :
    (depositCheck z b).1.eaten = b.eaten := by
  unfold depositCheck; split <;> rfl

theorem depositCheck_x (z : Zone) (b : Byte) :
    (depositCheck z b).1.x = b.x := by
  unfold depositCheck; split <;> rfl

theorem depositCheck_y (z : Zone) (b : Byte) :
    (depositCheck z b).1.y = b.y := by
  unfold depositCheck; split <;> rfl

theorem moveFree_size (w h : ℚ) (b : Byte) : (moveFree w h b).size = b.size := rfl

theorem moveFree_caught (w h : ℚ) (b : Byte) : (moveFree w h b).caught = b.caught := rfl

theorem moveFree_grabbed (w h : ℚ) (b : Byte) : (moveFree w h b).grabbed = b.grabbed := rfl

theorem moveFree_eaten (w h : ℚ) (b : Byte) : (moveFree w h b).eaten = b.eaten := rfl

theorem bytesPhase_length (w h : ℚ) (c : Controller) (d : Bool) (gs : List Ghost)
    (z : Zone) (bs : List Byte) :
    (bytesPhase w h c d gs z bs).1.length = bs.length := by
  induction bs with
  | nil => rfl
  | cons b bs ih => simpa [bytesPhase] using ih

theorem tick_not_playing (w h : ℚ) (d : Bool) (now : ℕ) (rx ry rvx rvy rcolor : ℚ)
    (s : GameState) (hs : s.result ≠ GameResult.playing) :
    tick w h d now rx ry rvx rvy rcolor s = s := by
  unfold tick
  rw [if_pos hs]

theorem tick_playing (w h : ℚ) (d : Bool) (now : ℕ) (rx ry rvx rvy rcolor : ℚ)
    (s : GameState) (hs : s.result = GameResult.playing) :
    tick w h d now rx ry rvx rvy rcolor s =
      (let s1 := respawnPhase now rx ry rvx rvy rcolor s
       let mult := ghostSpeedMultiplier s1.caughtBytes
       let gs := s1.ghosts.map (moveGhost w h mult)
       let r := bytesPhase w h s1.controller d gs s1.container s1.bytes
       let caughtB := s1.caughtBytes + r.2.2
       let eatenB := s1.eatenBytes + r.2.1
       { s1 with ghosts := gs, bytes := r.1,
                 caughtBytes := caughtB, eatenBytes := eatenB,
                 result := evalResult caughtB eatenB }) := by
  unfold tick
  rw [if_neg (by simp [hs])]

theorem tick_caughtBytes_le (w h : ℚ) (d : Bool) (now : ℕ)
    (rx ry rvx rvy rcolor : ℚ) (s : GameState) :
    s.caughtBytes ≤ (tick w h d now rx ry rvx rvy rcolor s).caughtBytes := by
  by_cases hs : s.result = GameResult.playing
  · rw [tick_playing w h d now rx ry rvx rvy rcolor s hs]
    simp only [respawnPhase_caughtBytes]
    exact Nat.le_add_right _ _
  · rw [tick_not_playing w h d now rx ry rvx rvy rcolor s hs]

theorem tick_eatenBytes_le (w h : ℚ) (d : Bool) (now : ℕ)
    (rx ry rvx rvy rcolor : ℚ) (s : GameState) :
    s.eatenBytes ≤ (tick w h d now rx ry rvx rvy rcolor s).eatenBytes := by
  by_cases hs : s.result = GameResult.playing
  · rw [tick_playing w h d now rx ry rvx rvy rcolor s hs]
    simp only [respawnPhase_eatenBytes]
    exact Nat.le_add_right _ _
  · rw [tick_not_playing w h d now rx ry rvx rvy rcolor s hs]

theorem overlapsGhost_grabCheck (c : Controller) (d : Bool) (b : Byte) :
    overlapsGhost (grabCheck c d b) = overlapsGhost b := by
  funext g
  unfold overlapsGhost
  rw [grabCheck_x, grabCheck_y, grabCheck_size]

theorem byteStep_of_grabbed (w h : ℚ) (c : Controller) (d : Bool) (gs : List Ghost)
    (z : Zone) (b : Byte) (hg : b.grabbed = true) :
    byteStep w h c d gs z b =
      (if b.caught then (b, 0, 0)
       else ((depositCheck z (followMove c b)).1, 0, (depositCheck z (followMove c b)).2)) := by
  unfold byteStep
  by_cases hc : b.caught = true
  · simp [hg, hc]
  · rw [Bool.not_eq_true] at hc
    simp [hg, hc]

theorem byteStep_of_free (w h : ℚ) (c : Controller) (d : Bool) (gs : List Ghost)
    (z : Zone) (b : Byte) (hc : b.caught = false) (hg : b.grabbed = false) :
    byteStep w h c d gs z b =
      (let fe := eatCheck gs (grabCheck c d (moveFree w h b)) 0
       let hd := if fe.1.grabbed && !fe.1.caught then depositCheck z (followMove c fe.1)
                 else (fe.1, 0)
       (hd.1, fe.2, hd.2)) := by
  unfold byteStep
  rw [hc, hg]
  simp

theorem evalResult_success_iff (cB eB : ℕ) :
    evalResult cB eB = GameResult.success ↔ totalBytes ≤ cB := by
  unfold evalResult
  split_ifs with h1 h2
  · exact iff_of_true rfl h1
  · exact iff_of_false (by decide) h1
  · exact iff_of_false (by decide) h1

theorem evalResult_failed_iff (cB eB : ℕ) :
    evalResult cB eB = GameResult.failed ↔ (cB < totalBytes ∧ totalBytes ≤ eB) := by
  unfold evalResult
  split_ifs with h1 h2
  · exact iff_of_false (by decide) (by omega)
  · exact iff_of_true rfl (by omega)
  · exact iff_of_false (by decide) (by omega)

theorem tick_result_eval (w h : ℚ) (d : Bool) (now : ℕ) (rx ry rvx rvy rcolor : ℚ)
    (s : GameState) (hs : s.result = GameResult.playing) :
    (tick w h d now rx ry rvx rvy rcolor s).result =
      evalResult (tick w h d now rx ry rvx rvy rcolor s).caughtBytes
        (tick w h d now rx ry rvx rvy rcolor s).eatenBytes := by
  rw [tick_playing w h d now rx ry rvx rvy rcolor s hs]

theorem tick_ghosts (w h : ℚ) (d : Bool) (now : ℕ) (rx ry rvx rvy rcolor : ℚ)
    (s : GameState) (hs : s.result = GameResult.playing) :
    (tick w h d now rx ry rvx rvy rcolor s).ghosts =
      s.ghosts.map (moveGhost w h (ghostSpeedMultiplier s.caughtBytes)) := by
  rw [tick_playing w h d now rx ry rvx rvy rcolor s hs]
  show (respawnPhase now rx ry rvx rvy rcolor s).ghosts.map
      (moveGhost w h (ghostSpeedMultiplier (respawnPhase now rx ry rvx rvy rcolor s).caughtBytes)) =
    s.ghosts.map (moveGhost w h (ghostSpeedMultiplier s.caughtBytes))
  rw [respawnPhase_ghosts, respawnPhase_caughtBytes]

theorem respawnPhase_bytes_length (now : ℕ) (rx ry rvx rvy rcolor : ℚ) (s : GameState) :
    (respawnPhase now rx ry rvx rvy rcolor s).bytes.length = s.bytes.length := by
  unfold respawnPhase
  split
  · exact respawnFirstCaught_length rx ry rvx rvy rcolor s.bytes
  · rfl

theorem tick_bytes_length (w h : ℚ) (d : Bool) (now : ℕ) (rx ry rvx rvy rcolor : ℚ)
    (s : GameState) :
    (tick w h d now rx ry rvx rvy rcolor s).bytes.length = s.bytes.length := by
  by_cases hs : s.result = GameResult.playing
  · rw [tick_playing w h d now rx ry rvx rvy rcolor s hs]
    show (bytesPhase w h _ d _ _ (respawnPhase now rx ry rvx rvy rcolor s).bytes).1.length
        = s.bytes.length
    rw [bytesPhase_length, respawnPhase_bytes_length]
  · rw [tick_not_playing w h d now rx ry rvx rvy rcolor s hs]

theorem byte_state_exactlyOne (b : Byte) :
    (isFreeByte b).toNat + (isHeldByte b).toNat + (isDepositCaptured b).toNat +
      (isConsumptionCaptured b).toNat = 1 := by
  unfold isFreeByte isHeldByte isDepositCaptured isConsumptionCaptured
  cases hc : b.caught <;> cases hg : b.grabbed <;> cases he : b.eaten <;> rfl

theorem countP_state_partition (bs : List Byte) :
    bs.countP isFreeByte + bs.countP isHeldByte + bs.countP isDepositCaptured +
      bs.countP isConsumptionCaptured = bs.length := by
  induction bs with
  | nil => rfl
  | cons b bs ih =>
      simp only [List.countP_cons, List.length_cons]
      cases hc : b.caught <;> cases hg : b.grabbed <;> cases he : b.eaten <;>
        simp [isFreeByte, isHeldByte, isDepositCaptured, isConsumptionCaptured,
          hc, hg, he] <;>
        omega

/-! ### Concrete game states used by the counterexamples and witnesses -/

/-- A session state with one free byte sitting on a motionless pursuer,
the cursor far away; used to realize a consumption capture. -/
def c1s0 : GameState :=
  { bytes := [mkByte 100 100 0 0 10 false false false],
    ghosts := [stillGhost 100 100 15],
    controller := { x := 500, y := 50, size := 20 },
    container := container0, caughtBytes := 0, eatenBytes := 0,
    lastByteSpawn := 0, result := GameResult.playing }

/-- `c1s0` after one tick (the byte is eaten by the pursuer). -/
def c1s1 : GameState := tick 600 400 false 500 0 0 0 0 0 c1s0

/-- `c1s1` after a second tick whose wall clock passes the respawn gate
(the eaten byte is recycled to position (300, 300)). -/
def c1s2 : GameState := tick 600 400 false 2000 300 300 1 1 0 c1s1

/-- A session state whose single byte has been held by the cursor since
a previous tick and overlaps a motionless pursuer; the cursor sits on
the byte and the pointer button is up. -/
def c2s0 : GameState :=
  { bytes := [mkByte 100 100 0 0 10 false true false],
    ghosts := [stillGhost 100 100 15],
    controller := { x := 100, y := 100, size := 20 },
    container := container0, caughtBytes := 0, eatenBytes := 0,
    lastByteSpawn := 0, result := GameResult.playing }

/-- `c2s0` after one tick. -/
def c2s1 : GameState := tick 600 400 false 0 0 0 0 0 0 c2s0

/-- A session state at deposit counter 19 and consumed counter 19 with
one held byte inside the deposit zone and one free byte on a pursuer,
so that both counters reach 20 in the same tick. -/
def c4s0 : GameState :=
  { bytes := [mkByte 300 250 0 0 10 false true false,
              mkByte 100 100 0 0 10 false false false],
    ghosts := [stillGhost 100 100 15],
    controller := { x := 300, y := 250, size := 20 },
    container := container0, caughtBytes := 19, eatenBytes := 19,
    lastByteSpawn := 0, result := GameResult.playing }

/-- `c4s0` after one tick. -/
def c4s1 : GameState := tick 600 400 false 0 0 0 0 0 0 c4s0

/-- A session state whose single byte is held, lies inside the deposit
zone and overlaps a motionless pursuer on the same tick. -/
def c5s0 : GameState :=
  { bytes := [mkByte 300 250 0 0 10 false true false],
    ghosts := [stillGhost 300 250 15],
    controller := { x := 300, y := 250, size := 20 },
    container := container0, caughtBytes := 0, eatenBytes := 0,
    lastByteSpawn := 0, result := GameResult.playing }

/-- `c5s0` after one tick. -/
def c5s1 : GameState := tick 600 400 false 0 0 0 0 0 0 c5s0

/-- A session state at consumed counter 19 whose single free byte
overlaps two motionless pursuers at once. -/
def c6s0 : GameState :=
  { bytes := [mkByte 100 100 0 0 10 false false false],
    ghosts := [stillGhost 100 100 15, stillGhost 100 100 16],
    controller := { x := 500, y := 50, size := 20 },
    container := container0, caughtBytes := 0, eatenBytes := 19,
    lastByteSpawn := 0, result := GameResult.playing }

/-- `c6s0` after one tick. -/
def c6s1 : GameState := tick 600 400 false 0 0 0 0 0 0 c6s0

/-! ### The claims -/

/-- C1, counterexample.  The respawn scheduler does not restrict itself
to deposit-captured bytes: in `c1s0` the only byte is consumed by a
pursuer (after the first tick it is captured with the consumed counter
at 1 and the deposit counter at 0), yet the next tick's respawn path
recycles it back to the free state — a consumption-captured unit is
found free (neither caught nor grabbed) at a later tick. -/
theorem c1_counterexample :
    c1s1.bytes.map Byte.caught = [true] ∧
    c1s1.bytes.map Byte.eaten = [true] ∧
    c1s1.eatenBytes = 1 ∧ c1s1.caughtBytes = 0 ∧
    c1s2.bytes.map Byte.caught = [false] ∧
    c1s2.bytes.map Byte.grabbed = [false] := by
  norm_num [c1s2, c1s1, c1s0, tick, respawnPhase, respawnFirstCaught, bytesPhase,
    byteStep, eatCheck, grabCheck, moveFree, followMove, depositCheck, collide,
    overlapsGhost, eatMark, ghostSpeedMultiplier, moveGhost, evalResult, mkByte,
    stillGhost, container0, totalBytes]

/-- C1, amended.  The respawn path recycles the first collectible in
the captured state regardless of how it was captured: in particular a
consumption-captured collectible (captured with the eaten marker set)
is recycled back to free circulation with a fresh position, velocity
and color. -/
theorem c1_respawn_recycles_consumption_captured
    (rx ry rvx rvy rcolor : ℚ) (pre post : List Byte) (b : Byte)
    (hpre : ∀ p ∈ pre, p.caught = false) (hb : b.caught = true)
    (hbe : b.eaten = true) :
    ∃ b' : Byte,
      respawnFirstCaught rx ry rvx rvy rcolor (pre ++ b :: post) =
        pre ++ b' :: post ∧
      isFreeByte b' = true ∧ b'.x = rx ∧ b'.y = ry ∧ b'.vx = rvx ∧
      b'.vy = rvy ∧ b'.color = rcolor := by
  exact ⟨_, respawnFirstCaught_split rx ry rvx rvy rcolor pre post b hpre hb,
    rfl, rfl, rfl, rfl, rfl, rfl⟩

/-- C1, witness for the amended theorem at a concrete
consumption-captured byte. -/
theorem c1_witness :
    (mkByte 1 2 3 4 5 true false true).caught = true ∧
    (mkByte 1 2 3 4 5 true false true).eaten = true ∧
    ∃ b' : Byte,
      respawnFirstCaught 7 8 9 10 11
          ([] ++ mkByte 1 2 3 4 5 true false true :: []) = [] ++ b' :: [] ∧
      isFreeByte b' = true ∧ b'.x = 7 ∧ b'.y = 8 ∧ b'.vx = 9 ∧
      b'.vy = 10 ∧ b'.color = 11 :=
  ⟨rfl, rfl,
    c1_respawn_recycles_consumption_captured 7 8 9 10 11 [] []
      (mkByte 1 2 3 4 5 true false true)
      (fun p hp => absurd hp (List.not_mem_nil p)) rfl rfl⟩

/-- C2, counterexample.  A collectible that has been held since a
previous tick is not subjected to the pursuer-consumption test: in
`c2s0` the held byte overlaps the pursuer (both byte and pursuer keep
their positions through the tick), yet after the tick it is still held,
not captured, and the consumed counter is still 0. -/
theorem c2_counterexample :
    overlapsGhost (mkByte 100 100 0 0 10 false true false)
      (stillGhost 100 100 15) = true ∧
    c2s0.bytes.map Byte.grabbed = [true] ∧
    c2s1.bytes.map Byte.x = [100] ∧ c2s1.bytes.map Byte.y = [100] ∧
    c2s1.ghosts.map Ghost.x = [100] ∧ c2s1.ghosts.map Ghost.y = [100] ∧
    c2s1.bytes.map Byte.caught = [false] ∧
    c2s1.bytes.map Byte.grabbed = [true] ∧
    c2s1.eatenBytes = 0 := by
  norm_num [c2s1, c2s0, tick, respawnPhase, bytesPhase, byteStep, eatCheck,
    grabCheck, moveFree, followMove, depositCheck, collide, overlapsGhost,
    eatMark, ghostSpeedMultiplier, moveGhost, evalResult, mkByte, stillGhost,
    container0, totalBytes]

/-- C2, amended.  The pursuer-consumption test is applied to a
collectible only when it enters the tick neither captured nor held: a
byte that enters the tick grabbed produces no consumed-counter
increment and keeps its consumption marker, whatever the pursuers do;
a byte that enters the tick free is tested (at its post-motion
position) against every pursuer, each overlapping pursuer incrementing
the consumed counter. -/
theorem c2_held_byte_protected (w h : ℚ) (c : Controller) (dragging : Bool)
    (gs : List Ghost) (z : Zone) (b : Byte) :
    (b.grabbed = true →
        (byteStep w h c dragging gs z b).2.1 = 0 ∧
        (byteStep w h c dragging gs z b).1.eaten = b.eaten) ∧
    (b.caught = false → b.grabbed = false →
        (byteStep w h c dragging gs z b).2.1 =
          gs.countP (overlapsGhost (moveFree w h b)) ∧
        (byteStep w h c dragging gs z b).1.eaten =
          (b.eaten || gs.any (overlapsGhost (moveFree w h b)))) := by
  constructor
  · intro hg
    rw [byteStep_of_grabbed w h c dragging gs z b hg]
    by_cases hc : b.caught = true
    · rw [if_pos hc]
      exact ⟨rfl, rfl⟩
    · rw [if_neg hc]
      refine ⟨rfl, ?_⟩
      show (depositCheck z (followMove c b)).1.eaten = b.eaten
      rw [depositCheck_eaten, followMove_eaten]
  · intro hc hg
    rw [byteStep_of_free w h c dragging gs z b hc hg]
    simp only [eatCheck_spec, overlapsGhost_grabCheck]
    by_cases hany : gs.any (overlapsGhost (moveFree w h b)) = true
    · simp [hany, eatMark]
    · rw [Bool.not_eq_true] at hany
      refine ⟨by omega, ?_⟩
      simp only [hany, Bool.false_eq_true, if_false, Bool.or_false]
      by_cases hgg : (grabCheck c dragging (moveFree w h b)).grabbed = true
      · rw [if_pos (by simp [hgg, grabCheck_caught, moveFree_caught, hc])]
        rw [depositCheck_eaten, followMove_eaten, grabCheck_eaten, moveFree_eaten]
      · rw [Bool.not_eq_true] at hgg
        rw [if_neg (by simp [hgg])]
        rw [grabCheck_eaten, moveFree_eaten]

/-- C2, witness: the first part applied to a concrete held byte on a
pursuer, the second to a concrete free byte. -/
theorem c2_witness :
    ((byteStep 600 400 (ctrlAt 100 100) false
        [stillGhost 100 100 15] container0
        (mkByte 100 100 0 0 10 false true false)).2.1 = 0 ∧
     (byteStep 600 400 (ctrlAt 100 100) false
        [stillGhost 100 100 15] container0
        (mkByte 100 100 0 0 10 false true false)).1.eaten =
       (mkByte 100 100 0 0 10 false true false).eaten) ∧
    ((byteStep 600 400 (ctrlAt 100 100) false
        [stillGhost 100 100 15] container0
        (mkByte 100 100 0 0 10 false false false)).2.1 =
       [stillGhost 100 100 15].countP
         (overlapsGhost (moveFree 600 400 (mkByte 100 100 0 0 10 false false false))) ∧
     (byteStep 600 400 (ctrlAt 100 100) false
        [stillGhost 100 100 15] container0
        (mkByte 100 100 0 0 10 false false false)).1.eaten =
       ((mkByte 100 100 0 0 10 false false false).eaten ||
         [stillGhost 100 100 15].any
           (overlapsGhost (moveFree 600 400 (mkByte 100 100 0 0 10 false false false))))) :=
  ⟨(c2_held_byte_protected 600 400 (ctrlAt 100 100) false
      [stillGhost 100 100 15] container0
      (mkByte 100 100 0 0 10 false true false)).1 rfl,
   (c2_held_byte_protected 600 400 (ctrlAt 100 100) false
      [stillGhost 100 100 15] container0
      (mkByte 100 100 0 0 10 false false false)).2 rfl rfl⟩


/-- A playing session state with the full complement of 20 free bytes
and no pursuers. -/
def c3s0 : GameState :=
  { bytes := List.replicate 20 (mkByte 50 50 0 0 8 false false false),
    ghosts := [], controller := ctrlAt 0 0, container := container0,
    caughtBytes := 0, eatenBytes := 0, lastByteSpawn := 0,
    result := GameResult.playing }

/-- C3, confirmed.  Every byte is in exactly one of the four states
free / held / deposit-captured / consumption-captured, the four state
counts always sum to the number of bytes, the tick preserves the number
of bytes, and hence in a session with the full complement of
`totalBytes` collectibles the four counts sum to `totalBytes` after
every tick. -/
theorem c3_state_partition :
    (∀ b : Byte,
        (isFreeByte b).toNat + (isHeldByte b).toNat + (isDepositCaptured b).toNat +
          (isConsumptionCaptured b).toNat = 1) ∧
    (∀ bs : List Byte,
        bs.countP isFreeByte + bs.countP isHeldByte + bs.countP isDepositCaptured +
          bs.countP isConsumptionCaptured = bs.length) ∧
    (∀ (w h : ℚ) (d : Bool) (now : ℕ) (rx ry rvx rvy rcolor : ℚ) (s : GameState),
        (tick w h d now rx ry rvx rvy rcolor s).bytes.length = s.bytes.length) ∧
    (∀ (w h : ℚ) (d : Bool) (now : ℕ) (rx ry rvx rvy rcolor : ℚ) (s : GameState),
        s.bytes.length = totalBytes →
        (tick w h d now rx ry rvx rvy rcolor s).bytes.countP isFreeByte +
          (tick w h d now rx ry rvx rvy rcolor s).bytes.countP isHeldByte +
          (tick w h d now rx ry rvx rvy rcolor s).bytes.countP isDepositCaptured +
          (tick w h d now rx ry rvx rvy rcolor s).bytes.countP isConsumptionCaptured =
          totalBytes) := by
  refine ⟨byte_state_exactlyOne, countP_state_partition, tick_bytes_length, ?_⟩
  intro w h d now rx ry rvx rvy rcolor s hlen
  rw [countP_state_partition, tick_bytes_length, hlen]

/-- C3, witness at a concrete 20-byte session state. -/
theorem c3_witness :
    c3s0.bytes.length = totalBytes ∧
    (tick 600 400 false 0 0 0 0 0 0 c3s0).bytes.countP isFreeByte +
      (tick 600 400 false 0 0 0 0 0 0 c3s0).bytes.countP isHeldByte +
      (tick 600 400 false 0 0 0 0 0 0 c3s0).bytes.countP isDepositCaptured +
      (tick 600 400 false 0 0 0 0 0 0 c3s0).bytes.countP isConsumptionCaptured =
      totalBytes :=
  ⟨by norm_num [c3s0, totalBytes],
   c3_state_partition.2.2.2 600 400 false 0 0 0 0 0 0 c3s0
     (by norm_num [c3s0, totalBytes])⟩

/-- C4, counterexample.  When the deposit counter and the consumed
counter reach the total in the same tick (here 19 + 1 each), the
end-of-tick evaluation reports success: the outcome is won even though
the consumed counter has reached the total, so "lost iff consumed
counter reaches the total" fails and the win check, not the
consumption check, has precedence. -/
theorem c4_counterexample :
    c4s0.result = GameResult.playing ∧
    c4s1.caughtBytes = totalBytes ∧
    c4s1.eatenBytes = totalBytes ∧
    c4s1.result = GameResult.success := by
  norm_num [c4s1, c4s0, tick, respawnPhase, bytesPhase, byteStep, eatCheck,
    grabCheck, moveFree, followMove, depositCheck, collide, overlapsGhost,
    eatMark, ghostSpeedMultiplier, moveGhost, evalResult, mkByte, stillGhost,
    container0, totalBytes, ctrlAt]

/-- C4, amended.  At the end-of-tick evaluation the outcome becomes won
iff the deposit counter has reached the total (this check runs first),
and lost iff the deposit counter has not reached the total while the
consumed counter has; the two terminal transitions never both hold.
Independently, the countdown callback forces the result to failed and
the remaining time to 0 as soon as the time is about to run out. -/
theorem c4_outcome_precedence :
    (∀ cB eB : ℕ,
        (evalResult cB eB = GameResult.success ↔ totalBytes ≤ cB) ∧
        (evalResult cB eB = GameResult.failed ↔ (cB < totalBytes ∧ totalBytes ≤ eB)) ∧
        ¬(evalResult cB eB = GameResult.success ∧ evalResult cB eB = GameResult.failed)) ∧
    (∀ (w h : ℚ) (d : Bool) (now : ℕ) (rx ry rvx rvy rcolor : ℚ) (s : GameState),
        s.result = GameResult.playing →
        ((tick w h d now rx ry rvx rvy rcolor s).result = GameResult.success ↔
          totalBytes ≤ (tick w h d now rx ry rvx rvy rcolor s).caughtBytes) ∧
        ((tick w h d now rx ry rvx rvy rcolor s).result = GameResult.failed ↔
          ((tick w h d now rx ry rvx rvy rcolor s).caughtBytes < totalBytes ∧
            totalBytes ≤ (tick w h d now rx ry rvx rvy rcolor s).eatenBytes))) ∧
    (∀ (t : ℕ) (r : GameResult), t ≤ 1 → timerTick t r = (0, GameResult.failed)) ∧
    (∀ (t : ℕ) (r : GameResult), 1 < t → timerTick t r = (t - 1, r)) := by
  refine ⟨?_, ?_, ?_, ?_⟩
  · intro cB eB
    refine ⟨evalResult_success_iff cB eB, evalResult_failed_iff cB eB, ?_⟩
    rintro ⟨h1, h2⟩
    rw [h1] at h2
    exact GameResult.noConfusion h2
  · intro w h d now rx ry rvx rvy rcolor s hs
    rw [tick_result_eval w h d now rx ry rvx rvy rcolor s hs]
    exact ⟨evalResult_success_iff _ _, evalResult_failed_iff _ _⟩
  · intro t r ht
    unfold timerTick
    rw [if_pos ht]
  · intro t r ht
    unfold timerTick
    rw [if_neg (by omega)]

/-- C4, witness: the tick-level equivalences at the concrete state
`c4s0` and the countdown behaviour at remaining times 1 and 5. -/
theorem c4_witness :
    c4s0.result = GameResult.playing ∧
    ((tick 600 400 false 0 0 0 0 0 0 c4s0).result = GameResult.success ↔
      totalBytes ≤ (tick 600 400 false 0 0 0 0 0 0 c4s0).caughtBytes) ∧
    ((tick 600 400 false 0 0 0 0 0 0 c4s0).result = GameResult.failed ↔
      ((tick 600 400 false 0 0 0 0 0 0 c4s0).caughtBytes < totalBytes ∧
        totalBytes ≤ (tick 600 400 false 0 0 0 0 0 0 c4s0).eatenBytes)) ∧
    timerTick 1 GameResult.playing = (0, GameResult.failed) ∧
    timerTick 5 GameResult.playing = (5 - 1, GameResult.playing) :=
  ⟨rfl,
   (c4_outcome_precedence.2.1 600 400 false 0 0 0 0 0 0 c4s0 rfl).1,
   (c4_outcome_precedence.2.1 600 400 false 0 0 0 0 0 0 c4s0 rfl).2,
   c4_outcome_precedence.2.2.1 1 GameResult.playing (le_refl 1),
   c4_outcome_precedence.2.2.2 5 GameResult.playing (by omega)⟩

/-- C5, counterexample.  A collectible that on the same tick lies
inside the deposit zone and overlaps a pursuer is not necessarily
consumption-captured: in `c5s0` the single held byte sits inside the
deposit zone on top of a pursuer, yet the tick deposits it (deposit
counter 1, consumed counter 0, no consumption marker). -/
theorem c5_counterexample :
    overlapsGhost (mkByte 300 250 0 0 10 false true false)
      (stillGhost 300 250 15) = true ∧
    (container0.x ≤ (mkByte 300 250 0 0 10 false true false).x ∧
     (mkByte 300 250 0 0 10 false true false).x ≤ container0.x + container0.width ∧
     container0.y ≤ (mkByte 300 250 0 0 10 false true false).y ∧
     (mkByte 300 250 0 0 10 false true false).y ≤ container0.y + container0.height) ∧
    c5s1.caughtBytes = 1 ∧ c5s1.eatenBytes = 0 ∧
    c5s1.bytes.map Byte.caught = [true] ∧
    c5s1.bytes.map Byte.eaten = [false] := by
  norm_num [c5s1, c5s0, tick, respawnPhase, bytesPhase, byteStep, eatCheck,
    grabCheck, moveFree, followMove, depositCheck, collide, overlapsGhost,
    eatMark, ghostSpeedMultiplier, moveGhost, evalResult, mkByte, stillGhost,
    container0, totalBytes, ctrlAt]

/-- C5, amended.  A collectible that is free at the start of its
per-tick processing is handled motion → grab check → consumption check,
and the deposit check runs only for held collectibles, which skip the
consumption check entirely; consequently a byte that was free (possibly
grabbed mid-tick) and overlaps a pursuer after its motion is consumed
and cannot be deposited that tick, while a byte held since a previous
tick whose follow step ends inside the deposit zone is deposited
whatever the pursuers do. -/
theorem c5_consumption_vs_deposit (w h : ℚ) (c : Controller) (dragging : Bool)
    (gs : List Ghost) (z : Zone) (b : Byte) :
    (b.caught = false → b.grabbed = false →
        gs.any (overlapsGhost (moveFree w h b)) = true →
        (byteStep w h c dragging gs z b).1.caught = true ∧
        (byteStep w h c dragging gs z b).1.eaten = true ∧
        (byteStep w h c dragging gs z b).2.2 = 0) ∧
    (b.caught = false → b.grabbed = true →
        (z.x ≤ (followMove c b).x ∧ (followMove c b).x ≤ z.x + z.width ∧
         z.y ≤ (followMove c b).y ∧ (followMove c b).y ≤ z.y + z.height) →
        (byteStep w h c dragging gs z b).1.caught = true ∧
        (byteStep w h c dragging gs z b).1.eaten = b.eaten ∧
        (byteStep w h c dragging gs z b).2.2 = 1 ∧
        (byteStep w h c dragging gs z b).2.1 = 0) := by
  constructor
  · intro hc hg hany
    rw [byteStep_of_free w h c dragging gs z b hc hg]
    simp only [eatCheck_spec, overlapsGhost_grabCheck]
    simp [hany, eatMark]
  · intro hc hg hz
    rw [byteStep_of_grabbed w h c dragging gs z b hg]
    rw [if_neg (by simp [hc])]
    unfold depositCheck
    rw [if_pos hz]
    exact ⟨rfl, followMove_eaten c b, rfl, rfl⟩

/-- C5, witness: the free-and-overlapping part at a concrete byte on a
pursuer, and the held-in-zone part at a concrete held byte. -/
theorem c5_witness :
    ([stillGhost 100 100 15].any
        (overlapsGhost (moveFree 600 400 (mkByte 100 100 0 0 10 false false false))) = true ∧
     (byteStep 600 400 (ctrlAt 500 50) false [stillGhost 100 100 15] container0
        (mkByte 100 100 0 0 10 false false false)).1.eaten = true ∧
     (byteStep 600 400 (ctrlAt 500 50) false [stillGhost 100 100 15] container0
        (mkByte 100 100 0 0 10 false false false)).2.2 = 0) ∧
    ((byteStep 600 400 (ctrlAt 300 250) false [stillGhost 300 250 15] container0
        (mkByte 300 250 0 0 10 false true false)).1.caught = true ∧
     (byteStep 600 400 (ctrlAt 300 250) false [stillGhost 300 250 15] container0
        (mkByte 300 250 0 0 10 false true false)).2.2 = 1 ∧
     (byteStep 600 400 (ctrlAt 300 250) false [stillGhost 300 250 15] container0
        (mkByte 300 250 0 0 10 false true false)).2.1 = 0) := by
  have hany : [stillGhost 100 100 15].any
      (overlapsGhost (moveFree 600 400 (mkByte 100 100 0 0 10 false false false))) = true := by
    norm_num [List.any, overlapsGhost, moveFree, collide, mkByte, stillGhost]
  have hz : container0.x ≤ (followMove (ctrlAt 300 250) (mkByte 300 250 0 0 10 false true false)).x ∧
      (followMove (ctrlAt 300 250) (mkByte 300 250 0 0 10 false true false)).x ≤
        container0.x + container0.width ∧
      container0.y ≤ (followMove (ctrlAt 300 250) (mkByte 300 250 0 0 10 false true false)).y ∧
      (followMove (ctrlAt 300 250) (mkByte 300 250 0 0 10 false true false)).y ≤
        container0.y + container0.height := by
    norm_num [followMove, mkByte, ctrlAt, container0]
  have h1 := (c5_consumption_vs_deposit 600 400 (ctrlAt 500 50) false
    [stillGhost 100 100 15] container0 (mkByte 100 100 0 0 10 false false false)).1
    rfl rfl hany
  have h2 := (c5_consumption_vs_deposit 600 400 (ctrlAt 300 250) false
    [stillGhost 300 250 15] container0 (mkByte 300 250 0 0 10 false true false)).2
    rfl rfl hz
  exact ⟨⟨hany, h1.2.1, h1.2.2⟩, ⟨h2.1, h2.2.2.1, h2.2.2.2⟩⟩



/-- C6, counterexample.  The consumed counter is not bounded by the
total collectible count, and a single tick's consumption checks can
push it past the total: in `c6s0` the consumed counter is 19 and the
single free byte overlaps two pursuers, so one tick increments the
counter twice, to 21 > 20. -/
theorem c6_counterexample :
    c6s0.eatenBytes = 19 ∧ totalBytes = 20 ∧ c6s1.eatenBytes = 21 := by
  norm_num [c6s1, c6s0, tick, respawnPhase, bytesPhase, byteStep, eatCheck,
    grabCheck, moveFree, followMove, depositCheck, collide, overlapsGhost,
    eatMark, ghostSpeedMultiplier, moveGhost, evalResult, mkByte, stillGhost,
    container0, totalBytes, ctrlAt]

/-- C6, amended.  The deposit counter and the consumed counter are each
monotonically non-decreasing from tick to tick (neither is bounded by
the total collectible count — see the counterexample). -/
theorem c6_counters_monotone (w h : ℚ) (d : Bool) (now : ℕ)
    (rx ry rvx rvy rcolor : ℚ) (s : GameState) :
    s.caughtBytes ≤ (tick w h d now rx ry rvx rvy rcolor s).caughtBytes ∧
    s.eatenBytes ≤ (tick w h d now rx ry rvx rvy rcolor s).eatenBytes :=
  ⟨tick_caughtBytes_le w h d now rx ry rvx rvy rcolor s,
   tick_eatenBytes_le w h d now rx ry rvx rvy rcolor s⟩

/-- C7, confirmed.  Every collision test in the loop is the
circle-circle test: the grab check marks a free byte grabbed exactly
when the pointer is held and `collide` holds between the byte's and the
cursor's positions with the sum of their sizes, the consumption loop
tests a byte once against every pursuer with `collide` on the
positions and size sum, and `collide` itself is equivalent to comparing
the Euclidean distance between the two positions against the size sum. -/
theorem c7_collision_circle :
    (∀ x1 y1 x2 y2 s : ℚ, 0 ≤ s →
        (collide x1 y1 x2 y2 s = true ↔
          Real.sqrt (((x1 : ℝ) - x2) ^ 2 + ((y1 : ℝ) - y2) ^ 2) < (s : ℝ))) ∧
    (∀ (b : Byte) (g : Ghost),
        overlapsGhost b g = collide b.x b.y g.x g.y (g.size + b.size)) ∧
    (∀ (c : Controller) (d : Bool) (b : Byte),
        (grabCheck c d b).grabbed =
          (b.grabbed || (collide b.x b.y c.x c.y (c.size + b.size) && d))) ∧
    (∀ (gs : List Ghost) (b : Byte) (n : ℕ),
        eatCheck gs b n =
          ((if gs.any (overlapsGhost b) then eatMark b else b),
            n + gs.countP (overlapsGhost b))) :=
  ⟨collide_iff_sqrt_lt, fun _ _ => rfl, grabCheck_grabbed, eatCheck_spec⟩

/-- C7, witness: the Euclidean-distance equivalence at a concrete pair
of points at distance 5 with size sum 6. -/
theorem c7_witness :
    (0 : ℚ) ≤ 6 ∧
    (collide 0 0 3 4 6 = true ↔
      Real.sqrt ((((0 : ℚ) : ℝ) - ((3 : ℚ) : ℝ)) ^ 2 +
          (((0 : ℚ) : ℝ) - ((4 : ℚ) : ℝ)) ^ 2) < ((6 : ℚ) : ℝ)) :=
  ⟨by norm_num, c7_collision_circle.1 0 0 3 4 6 (by norm_num)⟩

/-- C8, confirmed.  After the motion step a free byte's position lies
inside `[0, w - size] × [0, h - size]`; whenever adding the velocity
would put the byte strictly outside a boundary on an axis, exactly that
axis's velocity component is negated and the position clamped to the
violated boundary; an axis whose bounce condition does not fire keeps
its velocity and takes the plain position update; and the speed
magnitude on each axis is always preserved. -/
theorem c8_free_motion_bounds (w h : ℚ) (b : Byte)
    (hw : b.size ≤ w) (hh : b.size ≤ h) :
    (0 ≤ (moveFree w h b).x ∧ (moveFree w h b).x ≤ w - b.size ∧
     0 ≤ (moveFree w h b).y ∧ (moveFree w h b).y ≤ h - b.size) ∧
    (b.x + b.vx < 0 →
        (moveFree w h b).vx = -b.vx ∧ (moveFree w h b).x = 0) ∧
    (w - b.size < b.x + b.vx →
        (moveFree w h b).vx = -b.vx ∧ (moveFree w h b).x = w - b.size) ∧
    (b.y + b.vy < 0 →
        (moveFree w h b).vy = -b.vy ∧ (moveFree w h b).y = 0) ∧
    (h - b.size < b.y + b.vy →
        (moveFree w h b).vy = -b.vy ∧ (moveFree w h b).y = h - b.size) ∧
    (¬(b.x + b.vx ≤ 0 ∨ w - b.size ≤ b.x + b.vx) →
        (moveFree w h b).vx = b.vx ∧ (moveFree w h b).x = b.x + b.vx) ∧
    (¬(b.y + b.vy ≤ 0 ∨ h - b.size ≤ b.y + b.vy) →
        (moveFree w h b).vy = b.vy ∧ (moveFree w h b).y = b.y + b.vy) ∧
    |(moveFree w h b).vx| = |b.vx| ∧ |(moveFree w h b).vy| = |b.vy| := by
  have hA : (0 : ℚ) ≤ w - b.size := by linarith
  have hB : (0 : ℚ) ≤ h - b.size := by linarith
  have hx_eq : (moveFree w h b).x =
      (if b.x + b.vx ≤ 0 ∨ w - b.size ≤ b.x + b.vx
       then max 0 (min (w - b.size) (b.x + b.vx)) else b.x + b.vx) := rfl
  have hvx_eq : (moveFree w h b).vx =
      (if b.x + b.vx ≤ 0 ∨ w - b.size ≤ b.x + b.vx then -b.vx else b.vx) := rfl
  have hy_eq : (moveFree w h b).y =
      (if b.y + b.vy ≤ 0 ∨ h - b.size ≤ b.y + b.vy
       then max 0 (min (h - b.size) (b.y + b.vy)) else b.y + b.vy) := rfl
  have hvy_eq : (moveFree w h b).vy =
      (if b.y + b.vy ≤ 0 ∨ h - b.size ≤ b.y + b.vy then -b.vy else b.vy) := rfl
  refine ⟨⟨?_, ?_, ?_, ?_⟩, ?_, ?_, ?_, ?_, ?_, ?_, ?_, ?_⟩
  · rw [hx_eq]
    split_ifs with hc
    · exact le_max_left 0 _
    · push_neg at hc
      linarith [hc.1]
  · rw [hx_eq]
    split_ifs with hc
    · exact max_le hA (min_le_left _ _)
    · push_neg at hc
      linarith [hc.2]
  · rw [hy_eq]
    split_ifs with hc
    · exact le_max_left 0 _
    · push_neg at hc
      linarith [hc.1]
  · rw [hy_eq]
    split_ifs with hc
    · exact max_le hB (min_le_left _ _)
    · push_neg at hc
      linarith [hc.2]
  · intro hlt
    have hcond : b.x + b.vx ≤ 0 ∨ w - b.size ≤ b.x + b.vx := Or.inl (le_of_lt hlt)
    constructor
    · rw [hvx_eq, if_pos hcond]
    · rw [hx_eq, if_pos hcond, min_eq_right (by linarith), max_eq_left (by linarith)]
  · intro hgt
    have hcond : b.x + b.vx ≤ 0 ∨ w - b.size ≤ b.x + b.vx := Or.inr (le_of_lt hgt)
    constructor
    · rw [hvx_eq, if_pos hcond]
    · rw [hx_eq, if_pos hcond, min_eq_left (le_of_lt hgt), max_eq_right hA]
  · intro hlt
    have hcond : b.y + b.vy ≤ 0 ∨ h - b.size ≤ b.y + b.vy := Or.inl (le_of_lt hlt)
    constructor
    · rw [hvy_eq, if_pos hcond]
    · rw [hy_eq, if_pos hcond, min_eq_right (by linarith), max_eq_left (by linarith)]
  · intro hgt
    have hcond : b.y + b.vy ≤ 0 ∨ h - b.size ≤ b.y + b.vy := Or.inr (le_of_lt hgt)
    constructor
    · rw [hvy_eq, if_pos hcond]
    · rw [hy_eq, if_pos hcond, min_eq_left (le_of_lt hgt), max_eq_right hB]
  · intro hno
    exact ⟨by rw [hvx_eq, if_neg hno], by rw [hx_eq, if_neg hno]⟩
  · intro hno
    exact ⟨by rw [hvy_eq, if_neg hno], by rw [hy_eq, if_neg hno]⟩
  · rw [hvx_eq]
    split_ifs
    · exact abs_neg _
    · rfl
  · rw [hvy_eq]
    split_ifs
    · exact abs_neg _
    · rfl

/-- C8, witness: a byte whose motion crosses the right wall and the top
wall in the same tick, in the 600 × 400 play area. -/
theorem c8_witness :
    (mkByte 585 5 10 (-10) 10 false false false).size ≤ (600 : ℚ) ∧
    (mkByte 585 5 10 (-10) 10 false false false).size ≤ (400 : ℚ) ∧
    (0 ≤ (moveFree 600 400 (mkByte 585 5 10 (-10) 10 false false false)).x ∧
     (moveFree 600 400 (mkByte 585 5 10 (-10) 10 false false false)).x ≤
       600 - (mkByte 585 5 10 (-10) 10 false false false).size ∧
     0 ≤ (moveFree 600 400 (mkByte 585 5 10 (-10) 10 false false false)).y ∧
     (moveFree 600 400 (mkByte 585 5 10 (-10) 10 false false false)).y ≤
       400 - (mkByte 585 5 10 (-10) 10 false false false).size) :=
  ⟨by norm_num [mkByte], by norm_num [mkByte],
   (c8_free_motion_bounds 600 400 (mkByte 585 5 10 (-10) 10 false false false)
      (by norm_num [mkByte]) (by norm_num [mkByte])).1⟩

/-- A playing session state with no bytes, one pursuer and deposit
counter 12 (past the difficulty milestone). -/
def c9s0 : GameState :=
  { bytes := [], ghosts := [stillGhost 50 50 15], controller := ctrlAt 0 0,
    container := container0, caughtBytes := 12, eatenBytes := 0,
    lastByteSpawn := 0, result := GameResult.playing }

/-- C9, confirmed.  The pursuer speed multiplier is the pure function
of the deposit counter that is 2 iff the counter has reached 10 and 1
otherwise; it is monotone in the counter; every tick moves every
pursuer with the multiplier computed from the current deposit counter;
and because the counter never decreases, once the multiplier is 2 it is
still 2 after any further tick. -/
theorem c9_difficulty_multiplier :
    (∀ cB : ℕ, (ghostSpeedMultiplier cB = 2 ↔ 10 ≤ cB) ∧
        (ghostSpeedMultiplier cB = 1 ↔ cB < 10)) ∧
    (∀ cB cB' : ℕ, cB ≤ cB' →
        ghostSpeedMultiplier cB ≤ ghostSpeedMultiplier cB') ∧
    (∀ (w h : ℚ) (d : Bool) (now : ℕ) (rx ry rvx rvy rcolor : ℚ) (s : GameState),
        s.result = GameResult.playing →
        (tick w h d now rx ry rvx rvy rcolor s).ghosts =
          s.ghosts.map (moveGhost w h (ghostSpeedMultiplier s.caughtBytes))) ∧
    (∀ (w h : ℚ) (d : Bool) (now : ℕ) (rx ry rvx rvy rcolor : ℚ) (s : GameState),
        ghostSpeedMultiplier s.caughtBytes = 2 →
        ghostSpeedMultiplier (tick w h d now rx ry rvx rvy rcolor s).caughtBytes = 2) := by
  have hiff : ∀ cB : ℕ, (ghostSpeedMultiplier cB = 2 ↔ 10 ≤ cB) ∧
      (ghostSpeedMultiplier cB = 1 ↔ cB < 10) := by
    intro cB
    unfold ghostSpeedMultiplier
    split_ifs with hcb
    · exact ⟨iff_of_true rfl hcb, iff_of_false (by norm_num) (by omega)⟩
    · exact ⟨iff_of_false (by norm_num) hcb, iff_of_true rfl (by omega)⟩
  refine ⟨hiff, ?_, ?_, ?_⟩
  · intro cB cB' hle
    unfold ghostSpeedMultiplier
    split_ifs with h1 h2
    · exact le_refl 2
    · exact absurd (h1.trans hle) h2
    · norm_num
    · exact le_refl 1
  · intro w h d now rx ry rvx rvy rcolor s hs
    exact tick_ghosts w h d now rx ry rvx rvy rcolor s hs
  · intro w h d now rx ry rvx rvy rcolor s h2
    have h10 : 10 ≤ s.caughtBytes := ((hiff s.caughtBytes).1).mp h2
    exact ((hiff _).1).mpr
      (le_trans h10 (tick_caughtBytes_le w h d now rx ry rvx rvy rcolor s))

/-- C9, witness: monotonicity at 3 ≤ 12, the tick's ghost update at the
concrete state `c9s0`, and persistence of the doubled multiplier across
a tick of `c9s0`. -/
theorem c9_witness :
    ghostSpeedMultiplier 3 ≤ ghostSpeedMultiplier 12 ∧
    (tick 600 400 false 0 0 0 0 0 0 c9s0).ghosts =
      c9s0.ghosts.map (moveGhost 600 400 (ghostSpeedMultiplier c9s0.caughtBytes)) ∧
    ghostSpeedMultiplier (tick 600 400 false 0 0 0 0 0 0 c9s0).caughtBytes = 2 :=
  ⟨c9_difficulty_multiplier.2.1 3 12 (by omega),
   c9_difficulty_multiplier.2.2.1 600 400 false 0 0 0 0 0 0 c9s0 rfl,
   c9_difficulty_multiplier.2.2.2 600 400 false 0 0 0 0 0 0 c9s0
     (by norm_num [ghostSpeedMultiplier, c9s0])⟩

/-- C10, confirmed.  The respawn phase never touches the pursuers, the
cursor, the deposit zone, the two counters or the outcome; when no byte
is captured the byte list is returned unchanged; and when it recycles
the first captured byte it rewrites exactly that byte's position,
velocity and color and clears its captured/held flags, leaving its
size and follow target — and every other byte — unchanged. -/
theorem c10_respawn_frame :
    (∀ (now : ℕ) (rx ry rvx rvy rcolor : ℚ) (s : GameState),
        (respawnPhase now rx ry rvx rvy rcolor s).ghosts = s.ghosts ∧
        (respawnPhase now rx ry rvx rvy rcolor s).controller = s.controller ∧
        (respawnPhase now rx ry rvx rvy rcolor s).container = s.container ∧
        (respawnPhase now rx ry rvx rvy rcolor s).caughtBytes = s.caughtBytes ∧
        (respawnPhase now rx ry rvx rvy rcolor s).eatenBytes = s.eatenBytes ∧
        (respawnPhase now rx ry rvx rvy rcolor s).result = s.result) ∧
    (∀ (rx ry rvx rvy rcolor : ℚ) (bs : List Byte),
        (∀ b ∈ bs, b.caught = false) →
        respawnFirstCaught rx ry rvx rvy rcolor bs = bs) ∧
    (∀ (rx ry rvx rvy rcolor : ℚ) (pre post : List Byte) (b : Byte),
        (∀ p ∈ pre, p.caught = false) → b.caught = true →
        respawnFirstCaught rx ry rvx rvy rcolor (pre ++ b :: post) =
          pre ++ ({ b with x := rx, y := ry, vx := rvx, vy := rvy, color := rcolor,
                           caught := false, grabbed := false, eaten := false } :: post) ∧
        ({ b with x := rx, y := ry, vx := rvx, vy := rvy, color := rcolor,
                  caught := false, grabbed := false, eaten := false } : Byte).size = b.size ∧
        ({ b with x := rx, y := ry, vx := rvx, vy := rvy, color := rcolor,
                  caught := false, grabbed := false, eaten := false } : Byte).targetX = b.targetX ∧
        ({ b with x := rx, y := ry, vx := rvx, vy := rvy, color := rcolor,
                  caught := false, grabbed := false, eaten := false } : Byte).targetY = b.targetY) :=
  ⟨fun now rx ry rvx rvy rcolor s =>
     ⟨respawnPhase_ghosts now rx ry rvx rvy rcolor s,
      respawnPhase_controller now rx ry rvx rvy rcolor s,
      respawnPhase_container now rx ry rvx rvy rcolor s,
      respawnPhase_caughtBytes now rx ry rvx rvy rcolor s,
      respawnPhase_eatenBytes now rx ry rvx rvy rcolor s,
      respawnPhase_result now rx ry rvx rvy rcolor s⟩,
   respawnFirstCaught_of_none_caught,
   fun rx ry rvx rvy rcolor pre post b hpre hb =>
     ⟨respawnFirstCaught_split rx ry rvx rvy rcolor pre post b hpre hb, rfl, rfl, rfl⟩⟩

/-- The concrete captured byte recycled in the C10 witness. -/
def c10b : Byte := mkByte 2 2 1 1 9 true false true

/-- C10, witness: recycling the middle byte of a concrete three-byte
list. -/
theorem c10_witness :
    (c10b).caught = true ∧
    respawnFirstCaught 7 8 9 10 11
        ([mkByte 1 1 0 0 8 false false false] ++ c10b ::
          [mkByte 3 3 0 0 7 true false false]) =
      [mkByte 1 1 0 0 8 false false false] ++
        ({ c10b with x := 7, y := 8, vx := 9, vy := 10, color := 11,
                     caught := false, grabbed := false, eaten := false } ::
          [mkByte 3 3 0 0 7 true false false]) ∧
    ({ c10b with x := 7, y := 8, vx := 9, vy := 10, color := 11,
                 caught := false, grabbed := false, eaten := false } : Byte).size =
      (c10b).size :=
  ⟨rfl,
   (c10_respawn_frame.2.2 7 8 9 10 11 [mkByte 1 1 0 0 8 false false false]
      [mkByte 3 3 0 0 7 true false false] (c10b)
      (by intro p hp; rw [List.mem_singleton] at hp; subst hp; rfl) rfl).1,
   (c10_respawn_frame.2.2 7 8 9 10 11 [mkByte 1 1 0 0 8 false false false]
      [mkByte 3 3 0 0 7 true false false] (c10b)
      (by intro p hp; rw [List.mem_singleton] at hp; subst hp; rfl) rfl).2.1⟩


end ByteWrangler
